import Mathlib

/-!
Verification development for the vizro cross-page filter example.

The Python modules embedded here:
- `components/parameters.py`: the two Dash callbacks (`sync_to_store`,
  `sync_from_store`) and `create_date_range_parameters`;
- `components/charts.py`: the three chart renderers;
- `components/data.py` together with vizro's `data_manager`: the dataset loader.

Dataframes are embedded as `List Row`; Dash's `dash.no_update` sentinel is
`Option.none`; a missing `year` argument is `Option.none`.  The gapminder
columns that the code only ever displays (`gdpPercap`, `lifeExp`) carry no
arithmetic in the source, so their float values are embedded as `Int` without
loss for any property considered here.
-/

namespace VizroFilter

/-- A year range `[min_year, max_year]` as carried by the RangeSlider value and
the `year_range_store` data. -/
structure FilterRange where
  lo : Int
  hi : Int
deriving DecidableEq, Repr

/-- One row of the gapminder dataset: the columns the code touches. -/
structure Row where
  country : String
  continent : String
  year : Int
  lifeExp : Int
  pop : Int
  gdpPercap : Int
deriving DecidableEq, Repr

/-- A dataframe is a finite sequence of rows. -/
abbrev Dataset := List Row

/-! ## components/parameters.py: the two Dash callbacks -/

/-- `sync_to_store(selected_range, stored_data)`: fired when this page's
RangeSlider value changes; `return selected_range` writes the slider value to
the shared `year_range_store` unconditionally (`stored_data` is unused). -/
def sync_to_store (selected_range : FilterRange) (stored_data : Option FilterRange) :
    FilterRange :=
  selected_range

/-- `sync_from_store(stored_range, current_value)`: fired when the shared
`year_range_store` data changes; returns the stored range when it differs from
the slider's current value and `dash.no_update` (here `none`) otherwise. -/
def sync_from_store (stored_range : FilterRange) (current_value : FilterRange) :
    Option FilterRange :=
  if stored_range ≠ current_value then some stored_range else none

/-- The cascade a store update triggers at one widget: the widget update emitted
by `sync_from_store`, and the store write that a changed slider value would in
turn fire through `sync_to_store`.  Dash fires the slider's `Input` only when
its value actually changes; `dash.no_update` changes nothing, so it fires no
further callback.  The pair is `(widget update, further store write)`. -/
def storeUpdateEffects (stored_range : FilterRange) (current_value : FilterRange) :
    Option FilterRange × Option FilterRange :=
  match sync_from_store stored_range current_value with
  | some w => (some w, some (sync_to_store w (some stored_range)))
  | none => (none, none)

/-- Applying a store value to one widget: the slider takes the callback's output
when one is emitted and keeps its current value on `dash.no_update`. -/
def applyFromStore (stored_range : FilterRange) (current_value : FilterRange) :
    FilterRange :=
  match sync_from_store stored_range current_value with
  | some w => w
  | none => current_value

/-- Session state of the sync engine: the shared store plus the current value of
each page's RangeSlider. -/
structure SyncState where
  store : FilterRange
  widgets : List FilterRange
deriving DecidableEq, Repr

/-- Full processing of one user-driven change of widget `i` to value `v`:
the slider takes the new value, `sync_to_store` writes it to the shared store,
and the store change fires `sync_from_store` at every registered widget. -/
def processEvent (st : SyncState) (i : Nat) (v : FilterRange) : SyncState :=
  let widgets1 := st.widgets.set i v
  let store1 := sync_to_store v (some st.store)
  { store := store1, widgets := widgets1.map (fun w => applyFromStore store1 w) }

/-- `bounds.lo ≤ v.lo ∧ v.hi ≤ bounds.hi`: the range `v` is compatible with the
dataset-derived bounds. -/
def rangeWithin (bounds : FilterRange) (v : FilterRange) : Prop :=
  bounds.lo ≤ v.lo ∧ v.hi ≤ bounds.hi

instance (bounds v : FilterRange) : Decidable (rangeWithin bounds v) := by
  unfold rangeWithin; infer_instance

/-! ## components/charts.py: the three chart renderers -/

/-- `data_frame[(data_frame["year"] >= min_year) & (data_frame["year"] <= max_year)]`
when a year range is provided; the unfiltered frame otherwise. -/
def yearFilter (data_frame : Dataset) (year : Option FilterRange) : Dataset :=
  match year with
  | none => data_frame
  | some yr => data_frame.filter (fun r => decide (yr.lo ≤ r.year ∧ r.year ≤ yr.hi))

/-- The five countries kept by the line chart. -/
def countries : List String :=
  ["United States", "China", "India", "Germany", "Brazil"]

/-- The data handed to `px.line`: the doubly filtered frame and the fixed title
(plotted as `x="year"`, `y="gdpPercap"`, `color="country"`). -/
structure LineArtifact where
  rows : Dataset
  title : String
deriving DecidableEq, Repr

/-- `gapminder_line_chart(data_frame, year)`: year-range filter, then
`data_frame["country"].isin(countries)`, then `px.line`. -/
def gapminder_line_chart (data_frame : Dataset) (year : Option FilterRange) :
    LineArtifact :=
  let data_frame := yearFilter data_frame year
  let df_filtered := data_frame.filter (fun r => decide (r.country ∈ countries))
  { rows := df_filtered
    title := "GDP per Capita Over Time (Selected Countries)" }

/-- `df["year"].max()`: `none` models pandas' NaN on an empty frame. -/
def seriesMaxYear (data_frame : Dataset) : Option Int :=
  (data_frame.map (fun r => r.year)).max?

/-- The year rendered inside an f-string title: pandas' NaN prints as `nan`. -/
def yearLabel : Option Int → String
  | none => "nan"
  | some y => toString y

/-- The data handed to `px.scatter`: the latest-year subset and the title
(plotted as `x="gdpPercap"`, `y="lifeExp"`, `size="pop"`, `color="continent"`,
log x-axis). -/
structure ScatterArtifact where
  rows : Dataset
  title : String
deriving DecidableEq, Repr

/-- `gapminder_scatter_chart(data_frame, year)`: year-range filter, then the
subset at `latest_year = data_frame["year"].max()` (a comparison with NaN is
false for every row, so an empty frame stays empty), then `px.scatter`. -/
def gapminder_scatter_chart (data_frame : Dataset) (year : Option FilterRange) :
    ScatterArtifact :=
  let data_frame := yearFilter data_frame year
  let latest_year := seriesMaxYear data_frame
  let df_latest := match latest_year with
    | none => []
    | some y => data_frame.filter (fun r => decide (r.year = y))
  { rows := df_latest
    title := "Life Expectancy vs GDP per Capita (" ++ yearLabel latest_year ++ ")" }

/-- Insert a string into a sorted list, keeping it sorted. -/
def insertSortedStr (x : String) : List String → List String
  | [] => [x]
  | y :: ys => if x ≤ y then x :: y :: ys else y :: insertSortedStr x ys

/-- Insertion sort on strings: pandas `groupby` sorts its group keys. -/
def sortStr (l : List String) : List String :=
  l.foldr insertSortedStr []

/-- `df_latest.groupby("continent")["pop"].sum().reset_index()`: one record per
continent appearing in the frame, in sorted key order, with the summed `pop`. -/
def continent_pop (df_latest : Dataset) : List (String × Int) :=
  (sortStr (df_latest.map (fun r => r.continent)).eraseDups).map
    (fun c => (c, ((df_latest.filter (fun r => decide (r.continent = c))).map
      (fun r => r.pop)).sum))

/-- The data handed to `px.bar`: per-continent population sums and the title
(plotted as `x="continent"`, `y="pop"`). -/
structure BarArtifact where
  pops : List (String × Int)
  title : String
deriving DecidableEq, Repr

/-- `gapminder_bar_chart(data_frame, year)`: year-range filter, latest-year
subset as in the scatter chart, then per-continent population sums and
`px.bar`. -/
def gapminder_bar_chart (data_frame : Dataset) (year : Option FilterRange) :
    BarArtifact :=
  let data_frame := yearFilter data_frame year
  let latest_year := seriesMaxYear data_frame
  let df_latest := match latest_year with
    | none => []
    | some y => data_frame.filter (fun r => decide (r.year = y))
  { pops := continent_pop df_latest
    title := "Total Population by Continent (" ++ yearLabel latest_year ++ ")" }

/-! ## components/parameters.py: `create_date_range_parameters` -/

/-- `df["year"].min()`: `none` models pandas' NaN on an empty frame. -/
def seriesMinYear (data_frame : Dataset) : Option Int :=
  (data_frame.map (fun r => r.year)).min?

/-- The `vm.RangeSlider` constructed by `create_date_range_parameters`. -/
structure RangeSliderModel where
  id : String
  title : String
  min : Int
  max : Int
  step : Int
  value : FilterRange
deriving DecidableEq, Repr

/-- The `vm.Parameter` constructed by `create_date_range_parameters`. -/
structure ParameterModel where
  id : String
  targets : List String
  selector : RangeSliderModel
deriving DecidableEq, Repr

/-- Dash callback registration flags as set in the two `@callback` decorators. -/
structure CallbackConfig where
  preventInitialCall : Bool
  allowDuplicate : Bool
deriving DecidableEq, Repr

/-- The decorator of `sync_to_store`: `allow_duplicate=True`,
`prevent_initial_call=True`. -/
def sync_to_store_config : CallbackConfig :=
  { preventInitialCall := true, allowDuplicate := true }

/-- The decorator of `sync_from_store`: `prevent_initial_call=True`. -/
def sync_from_store_config : CallbackConfig :=
  { preventInitialCall := true, allowDuplicate := false }

/-- Dash invokes a registered callback at the app's initial render exactly when
`prevent_initial_call` is false. -/
def firesOnInitialRender (c : CallbackConfig) : Bool :=
  !c.preventInitialCall

/-- `create_date_range_parameters(prefix, data_frame, target_components)`: the
dataframe obtained from `data_manager[data_frame].load()` is passed in
directly; Python's `int(nan)` on an empty frame raises, modelled as `none`.
Returns the singleton parameter list built at lines 85-96 of the source. -/
def create_date_range_parameters (pfx : String) (df : Dataset)
    (target_components : List String) : Option (List ParameterModel) :=
  match seriesMinYear df, seriesMaxYear df with
  | some min_year, some max_year =>
    some [{ id := pfx ++ "year_range"
            targets := target_components.map (fun c => c ++ ".year")
            selector := { id := pfx ++ "year_range-selector"
                          title := "Year Range"
                          min := min_year
                          max := max_year
                          step := 5
                          value := { lo := min_year, hi := max_year } } }]
  | _, _ => none

/-! ## Dataset loader and store seeding

The memoization of `data_manager[name].load()` lives inside the vizro library,
and the `dcc.Store("year_range_store")` with its initial data is created by the
app module that assembles the dashboard; neither is under `src/`.  Both are
modelled from the spec below. -/

/-- Modelled from the spec: the missing part is vizro's `data_manager` cache
behind `data_manager[data_frame].load()` (only the registration
`load_gapminder_data` and the call sites are under `src/`).  The spec:
the first call performs the actual fetch and caches the result; every
subsequent call returns the cached Dataset without re-fetching. -/
structure LoaderState where
  cache : Option Dataset
  fetchCount : Nat
deriving DecidableEq, Repr

/-- Modelled from the spec: `load()` returns the cached dataset when one
exists, otherwise fetches, caches, and counts the fetch. -/
def load (fetch : Unit → Dataset) (st : LoaderState) : Dataset × LoaderState :=
  match st.cache with
  | some d => (d, st)
  | none =>
    let d := fetch ()
    (d, { cache := some d, fetchCount := st.fetchCount + 1 })

/-- `load_gapminder_data()` from components/data.py: returns
`px.data.gapminder()`, the externally fetched table, unchanged. -/
def load_gapminder_data (gapminderTable : Dataset) : Dataset :=
  gapminderTable

/-- Modelled from the spec: the creation of the shared
`dcc.Store("year_range_store")` is not under `src/`.  The spec: at first
activation the store has no value and is seeded from the Dataset Loader's
bounds exactly once per session; an already-seeded store keeps its value. -/
def seedStore (st : Option FilterRange) (bounds : FilterRange) : Option FilterRange :=
  match st with
  | some v => some v
  | none => some bounds

/-! ## Helper lemmas -/

/-- Applying a store value to a widget always leaves the widget holding exactly
the store value, whether or not an update was emitted. -/
theorem applyFromStore_eq (s v : FilterRange) : applyFromStore s v = s := by
  unfold applyFromStore sync_from_store
  by_cases h : s = v <;> simp [h]

/-- Two list filters commute. -/
theorem filter_comm_rows (p q : Row → Bool) (l : Dataset) :
    (l.filter p).filter q = (l.filter q).filter p := by
  rw [List.filter_filter, List.filter_filter]
  exact List.filter_congr (fun a _ => Bool.and_comm _ _)

/-- The line chart's country filter commutes with its year filter. -/
theorem line_rows_eq (df : Dataset) (year : Option FilterRange) :
    (yearFilter df year).filter (fun r => decide (r.country ∈ countries)) =
      yearFilter (df.filter (fun r => decide (r.country ∈ countries))) year := by
  cases year with
  | none => rfl
  | some yr => exact filter_comm_rows _ _ df

/-! ## Claims -/

/-- C1: `sync_from_store` applies the stored range to the widget exactly when it
differs from the widget's current value; when they are equal it emits
`dash.no_update`, so a store write of a value equal to the widget's current
value produces neither a further widget update nor a further store write. -/
theorem sync_from_store_equality_gate (s v : FilterRange) :
    (sync_from_store s v = some s ↔ s ≠ v) ∧
    (s = v → sync_from_store s v = none ∧ storeUpdateEffects s v = (none, none)) := by
  constructor
  · unfold sync_from_store
    by_cases h : s = v <;> simp [h]
  · intro h
    subst h
    simp [sync_from_store, storeUpdateEffects]

/-- Witness for C1 at concrete ranges. -/
theorem sync_from_store_equality_gate_witness :
    sync_from_store ⟨1980, 2000⟩ ⟨1952, 2007⟩ = some ⟨1980, 2000⟩ ∧
    sync_from_store ⟨1952, 2007⟩ ⟨1952, 2007⟩ = none ∧
    storeUpdateEffects ⟨1952, 2007⟩ ⟨1952, 2007⟩ = (none, none) :=
  ⟨(sync_from_store_equality_gate ⟨1980, 2000⟩ ⟨1952, 2007⟩).1.mpr (by decide),
   ((sync_from_store_equality_gate ⟨1952, 2007⟩ ⟨1952, 2007⟩).2 rfl).1,
   ((sync_from_store_equality_gate ⟨1952, 2007⟩ ⟨1952, 2007⟩).2 rfl).2⟩

/-- C2: after the sync engine fully processes one user-driven change of any
widget to any value — the `sync_to_store` write followed by the
`sync_from_store` propagation to every widget — every widget's current value
equals the store's value. -/
theorem convergence_after_event (st : SyncState) (i : Nat) (v : FilterRange)
    (w : FilterRange) (hw : w ∈ (processEvent st i v).widgets) :
    w = (processEvent st i v).store := by
  simp only [processEvent, List.mem_map] at hw
  obtain ⟨u, _, hu⟩ := hw
  rw [← hu, applyFromStore_eq]
  rfl

/-- Witness for C2 at a concrete two-widget session. -/
theorem convergence_after_event_witness :
    (⟨1980, 2000⟩ : FilterRange) =
      (processEvent ⟨⟨1952, 2007⟩, [⟨1952, 2007⟩, ⟨1952, 2007⟩]⟩ 0 ⟨1980, 2000⟩).store :=
  convergence_after_event ⟨⟨1952, 2007⟩, [⟨1952, 2007⟩, ⟨1952, 2007⟩]⟩ 0 ⟨1980, 2000⟩
    ⟨1980, 2000⟩ (by decide)

/-- C3: `sync_to_store` returns exactly the widget's newly selected range,
regardless of the store's previous contents, so the store's new value equals
that range. -/
theorem sync_to_store_returns_selected (selected_range : FilterRange)
    (stored_data : Option FilterRange) :
    sync_to_store selected_range stored_data = selected_range := rfl

/-- C4: for a year range `(mn, mx)`, each chart renderer's effective row set is
exactly the rows of the dataset with `mn ≤ year ≤ mx`, and each renderer's
result is the result of running its aggregate pipeline on that filtered set. -/
theorem chart_year_filter_correct (df : Dataset) (mn mx : Int) :
    (∀ r : Row, r ∈ yearFilter df (some ⟨mn, mx⟩) ↔
      r ∈ df ∧ mn ≤ r.year ∧ r.year ≤ mx) ∧
    gapminder_line_chart df (some ⟨mn, mx⟩) =
      gapminder_line_chart (yearFilter df (some ⟨mn, mx⟩)) none ∧
    gapminder_scatter_chart df (some ⟨mn, mx⟩) =
      gapminder_scatter_chart (yearFilter df (some ⟨mn, mx⟩)) none ∧
    gapminder_bar_chart df (some ⟨mn, mx⟩) =
      gapminder_bar_chart (yearFilter df (some ⟨mn, mx⟩)) none := by
  refine ⟨fun r => ?_, rfl, rfl, rfl⟩
  simp [yearFilter, List.mem_filter]

/-- C5: the parameter built at dashboard-build time carries
`value = (min(year), max(year))` over the full dataset, its selector's `min`
and `max` bounds equal that same pair, and seeding an uninitialized store with
this value makes it the store's initial value. -/
theorem initial_bounds_fidelity (pfx : String) (df : Dataset)
    (target_components : List String) (mn mx : Int)
    (hmn : seriesMinYear df = some mn) (hmx : seriesMaxYear df = some mx) :
    ∃ p : ParameterModel,
      create_date_range_parameters pfx df target_components = some [p] ∧
      p.selector.value = ⟨mn, mx⟩ ∧ p.selector.min = mn ∧ p.selector.max = mx ∧
      seedStore none p.selector.value = some ⟨mn, mx⟩ := by
  refine ⟨{ id := pfx ++ "year_range"
            targets := target_components.map (fun c => c ++ ".year")
            selector := { id := pfx ++ "year_range-selector", title := "Year Range",
                          min := mn, max := mx, step := 5, value := ⟨mn, mx⟩ } },
          ?_, rfl, rfl, rfl, rfl⟩
  unfold create_date_range_parameters
  rw [hmn, hmx]

/-- Witness for C5 at a concrete two-row dataset with years 1952 and 2007. -/
theorem initial_bounds_fidelity_witness :
    ∃ p : ParameterModel,
      create_date_range_parameters "page1_"
        [⟨"United States", "Americas", 1952, 68, 157553000, 13990⟩,
         ⟨"United States", "Americas", 2007, 78, 301139947, 42951⟩]
        ["line_chart"] = some [p] ∧
      p.selector.value = ⟨1952, 2007⟩ ∧ p.selector.min = 1952 ∧
      p.selector.max = 2007 ∧
      seedStore none p.selector.value = some ⟨1952, 2007⟩ :=
  initial_bounds_fidelity "page1_"
    [⟨"United States", "Americas", 1952, 68, 157553000, 13990⟩,
     ⟨"United States", "Americas", 2007, 78, 301139947, 42951⟩]
    ["line_chart"] 1952 2007 rfl rfl

/-- C6: from an empty cache, the first `load()` fetches exactly once and caches
its result; every call made while the cache holds that result returns the
identical cached dataset and leaves the loader state untouched (no re-fetch). -/
theorem loader_memoizes (fetch : Unit → Dataset) :
    (load fetch ⟨none, 0⟩).2.fetchCount = 1 ∧
    (load fetch ⟨none, 0⟩).2.cache = some (load fetch ⟨none, 0⟩).1 ∧
    ∀ st : LoaderState, st.cache = some (load fetch ⟨none, 0⟩).1 →
      load fetch st = ((load fetch ⟨none, 0⟩).1, st) := by
  refine ⟨rfl, rfl, fun st h => ?_⟩
  simp [load, h]

/-- Witness for C6 at a concrete fetch function and cached state. -/
theorem loader_memoizes_witness :
    load (fun _ => ([] : Dataset)) ⟨some [], 5⟩ = ([], ⟨some [], 5⟩) :=
  (loader_memoizes (fun _ => [])).2.2 ⟨some [], 5⟩ rfl

/-- C7 counterexample: the sync engine performs no clamping and no rejection:
`sync_to_store` stores the slider's value `[0, 9999]` verbatim although it lies
outside the dataset bounds `[1952, 2007]`, so the store does hold a range
incompatible with the bounds, contradicting the claim. -/
theorem sync_engine_no_clamp_counterexample :
    sync_to_store ⟨0, 9999⟩ (some ⟨1952, 2007⟩) = ⟨0, 9999⟩ ∧
    ¬ rangeWithin ⟨1952, 2007⟩ (sync_to_store ⟨0, 9999⟩ (some ⟨1952, 2007⟩)) :=
  ⟨rfl, by decide⟩

/-- C7 amended: the callbacks contain no bounds check: `sync_to_store` writes
the widget's reported value to the store unchanged even when it is outside the
dataset-derived bounds; in-bounds values are ensured only by the RangeSlider's
`min`/`max` configuration, not by the sync engine. -/
theorem sync_to_store_applies_out_of_range (bounds v : FilterRange)
    (s : Option FilterRange) (h : ¬ rangeWithin bounds v) :
    sync_to_store v s = v ∧ ¬ rangeWithin bounds (sync_to_store v s) := ⟨rfl, h⟩

/-- Witness for the amended C7 at a concrete out-of-bounds range. -/
theorem sync_to_store_applies_out_of_range_witness :
    sync_to_store ⟨1000, 3000⟩ (some ⟨1952, 2007⟩) = ⟨1000, 3000⟩ ∧
    ¬ rangeWithin ⟨1952, 2007⟩ (sync_to_store ⟨1000, 3000⟩ (some ⟨1952, 2007⟩)) :=
  sync_to_store_applies_out_of_range ⟨1952, 2007⟩ ⟨1000, 3000⟩ (some ⟨1952, 2007⟩)
    (by decide)

/-- C8: both callbacks are registered with `prevent_initial_call=True`, so the
initial render fires neither; seeding an uninitialized store is idempotent
(seeding a seeded store changes nothing, so it happens once per session); and
a widget already holding the seeded bounds receives no propagation. -/
theorem initial_render_no_callbacks :
    firesOnInitialRender sync_to_store_config = false ∧
    firesOnInitialRender sync_from_store_config = false ∧
    (∀ b : FilterRange, seedStore (seedStore none b) b = seedStore none b) ∧
    (∀ b : FilterRange, sync_from_store b b = none) := by
  refine ⟨rfl, rfl, fun b => rfl, fun b => ?_⟩
  simp [sync_from_store]

/-- C9: the chart renderers are total over arbitrary year ranges: when no row
falls in the range (in particular when `mn > mx`), the year filter yields the
empty row set, the latest-year aggregates are computed over that empty set, and
each renderer still returns an artifact. -/
theorem charts_total_on_empty_range (df : Dataset) (mn mx : Int)
    (h : ∀ r ∈ df, ¬ (mn ≤ r.year ∧ r.year ≤ mx)) :
    yearFilter df (some ⟨mn, mx⟩) = [] ∧
    gapminder_scatter_chart df (some ⟨mn, mx⟩) =
      { rows := [], title := "Life Expectancy vs GDP per Capita (nan)" } ∧
    gapminder_bar_chart df (some ⟨mn, mx⟩) =
      { pops := [], title := "Total Population by Continent (nan)" } ∧
    gapminder_line_chart df (some ⟨mn, mx⟩) =
      { rows := [], title := "GDP per Capita Over Time (Selected Countries)" } := by
  have hf : yearFilter df (some ⟨mn, mx⟩) = [] := by
    simp only [yearFilter]
    rw [List.filter_eq_nil_iff]
    intro r hr
    simpa using h r hr
  refine ⟨hf, ?_, ?_, ?_⟩
  · rw [show gapminder_scatter_chart df (some ⟨mn, mx⟩) =
        gapminder_scatter_chart (yearFilter df (some ⟨mn, mx⟩)) none from rfl, hf]
    rfl
  · rw [show gapminder_bar_chart df (some ⟨mn, mx⟩) =
        gapminder_bar_chart (yearFilter df (some ⟨mn, mx⟩)) none from rfl, hf]
    rfl
  · rw [show gapminder_line_chart df (some ⟨mn, mx⟩) =
        gapminder_line_chart (yearFilter df (some ⟨mn, mx⟩)) none from rfl, hf]
    rfl

/-- Witness for C9 at a concrete dataset and an inverted range. -/
theorem charts_total_on_empty_range_witness :
    yearFilter [⟨"United States", "Americas", 1952, 68, 157553000, 13990⟩]
      (some ⟨2000, 1990⟩) = [] ∧
    gapminder_scatter_chart [⟨"United States", "Americas", 1952, 68, 157553000, 13990⟩]
      (some ⟨2000, 1990⟩) =
      { rows := [], title := "Life Expectancy vs GDP per Capita (nan)" } ∧
    gapminder_bar_chart [⟨"United States", "Americas", 1952, 68, 157553000, 13990⟩]
      (some ⟨2000, 1990⟩) =
      { pops := [], title := "Total Population by Continent (nan)" } ∧
    gapminder_line_chart [⟨"United States", "Americas", 1952, 68, 157553000, 13990⟩]
      (some ⟨2000, 1990⟩) =
      { rows := [], title := "GDP per Capita Over Time (Selected Countries)" } :=
  charts_total_on_empty_range [⟨"United States", "Americas", 1952, 68, 157553000, 13990⟩]
    2000 1990 (by decide)

/-- C10: the line chart's output depends only on the rows of the five selected
countries: for any two datasets agreeing on those rows (and the same year
argument), the produced artifacts are identical. -/
theorem line_chart_depends_only_on_selected_countries (df1 df2 : Dataset)
    (year : Option FilterRange)
    (h : df1.filter (fun r => decide (r.country ∈ countries)) =
         df2.filter (fun r => decide (r.country ∈ countries))) :
    gapminder_line_chart df1 year = gapminder_line_chart df2 year := by
  show LineArtifact.mk
      ((yearFilter df1 year).filter (fun r => decide (r.country ∈ countries)))
      "GDP per Capita Over Time (Selected Countries)" =
    LineArtifact.mk
      ((yearFilter df2 year).filter (fun r => decide (r.country ∈ countries)))
      "GDP per Capita Over Time (Selected Countries)"
  rw [line_rows_eq, line_rows_eq, h]

/-- Witness for C10: two datasets differing only in a non-selected country's
row produce the same line chart. -/
theorem line_chart_depends_only_on_selected_countries_witness :
    gapminder_line_chart
      [⟨"United States", "Americas", 2007, 78, 301139947, 42951⟩,
       ⟨"France", "Europe", 2007, 80, 61083916, 30470⟩] (some ⟨1952, 2007⟩) =
    gapminder_line_chart
      [⟨"United States", "Americas", 2007, 78, 301139947, 42951⟩,
       ⟨"Japan", "Asia", 2007, 82, 127467972, 31656⟩] (some ⟨1952, 2007⟩) :=
  line_chart_depends_only_on_selected_countries
    [⟨"United States", "Americas", 2007, 78, 301139947, 42951⟩,
     ⟨"France", "Europe", 2007, 80, 61083916, 30470⟩]
    [⟨"United States", "Americas", 2007, 78, 301139947, 42951⟩,
     ⟨"Japan", "Asia", 2007, 82, 127467972, 31656⟩]
    (some ⟨1952, 2007⟩) (by decide)

end VizroFilter
